import Mathlib

/-!
# Verification of the vapi-webhook reference-check pipeline

A shallow embedding of the webhook route of this repository: the payload
pickers, the Gemini pass/fail classifiers, the keyword fallback heuristic,
and the document-store writes performed by the `POST` handlers (the
current `src/app/api/vapi/webhook/route.ts` and the historical route
variants kept in `src/unnamed/part_000`), together with theorems settling
the specification's claims about them.

Conventions:
* JSON payloads are modelled by `JVal`; `Option JVal` distinguishes
  JavaScript `undefined` (`none`) from `null` (`some .vnull`).
* The external pieces (HTTP, MongoDB, the Gemini API) are modelled as
  explicit inputs: the document store is a `Store` value threaded through
  the handler, and the classifier's reply is an oracle argument.
* The JavaScript string operations used by the route are re-implemented
  over `List Char` so that every definition evaluates inside the kernel.
-/

mutual

/-- JSON-like values, the universe of inbound webhook payloads and of the
fields stored in documents. Arrays are not modelled: no code path under
verification inspects the inside of an array value. -/
inductive JVal : Type where
  | vnull : JVal
  | vbool : Bool → JVal
  | vnum : Int → JVal
  | vstr : String → JVal
  | vobj : JFields → JVal

/-- Field list of a JSON object. -/
inductive JFields : Type where
  | nil : JFields
  | cons : String → JVal → JFields → JFields

end

mutual

/-- Decidable equality for `JVal` (manual: the deriving handler does not
cover mutual inductives; structural recursion keeps it kernel-reducible). -/
def JVal.decEq : (a b : JVal) → Decidable (a = b)
  | .vnull, .vnull => isTrue rfl
  | .vbool a, .vbool b =>
    match Bool.decEq a b with
    | isTrue h => isTrue (by rw [h])
    | isFalse h => isFalse (fun hc => h (by cases hc; rfl))
  | .vnum a, .vnum b =>
    match Int.decEq a b with
    | isTrue h => isTrue (by rw [h])
    | isFalse h => isFalse (fun hc => h (by cases hc; rfl))
  | .vstr a, .vstr b =>
    match String.decEq a b with
    | isTrue h => isTrue (by rw [h])
    | isFalse h => isFalse (fun hc => h (by cases hc; rfl))
  | .vobj fs, .vobj gs =>
    match JFields.decEq fs gs with
    | isTrue h => isTrue (by rw [h])
    | isFalse h => isFalse (fun hc => h (by cases hc; rfl))
  | .vnull, .vbool _ => isFalse nofun
  | .vnull, .vnum _ => isFalse nofun
  | .vnull, .vstr _ => isFalse nofun
  | .vnull, .vobj _ => isFalse nofun
  | .vbool _, .vnull => isFalse nofun
  | .vbool _, .vnum _ => isFalse nofun
  | .vbool _, .vstr _ => isFalse nofun
  | .vbool _, .vobj _ => isFalse nofun
  | .vnum _, .vnull => isFalse nofun
  | .vnum _, .vbool _ => isFalse nofun
  | .vnum _, .vstr _ => isFalse nofun
  | .vnum _, .vobj _ => isFalse nofun
  | .vstr _, .vnull => isFalse nofun
  | .vstr _, .vbool _ => isFalse nofun
  | .vstr _, .vnum _ => isFalse nofun
  | .vstr _, .vobj _ => isFalse nofun
  | .vobj _, .vnull => isFalse nofun
  | .vobj _, .vbool _ => isFalse nofun
  | .vobj _, .vnum _ => isFalse nofun
  | .vobj _, .vstr _ => isFalse nofun

/-- Decidable equality for `JFields`. -/
def JFields.decEq : (fs gs : JFields) → Decidable (fs = gs)
  | .nil, .nil => isTrue rfl
  | .nil, .cons _ _ _ => isFalse nofun
  | .cons _ _ _, .nil => isFalse nofun
  | .cons k v fs, .cons l w gs =>
    match String.decEq k l with
    | isFalse h => isFalse (fun hc => h (by cases hc; rfl))
    | isTrue hk =>
      match JVal.decEq v w with
      | isFalse h => isFalse (fun hc => h (by cases hc; rfl))
      | isTrue hv =>
        match JFields.decEq fs gs with
        | isTrue ht => isTrue (by rw [hk, hv, ht])
        | isFalse h => isFalse (fun hc => h (by cases hc; rfl))

end

instance : DecidableEq JVal := JVal.decEq
instance : DecidableEq JFields := JFields.decEq

/-- Build a field list from a Lean list, for readable object literals. -/
def JFields.ofList : List (String × JVal) → JFields
  | [] => .nil
  | (k, v) :: rest => .cons k v (JFields.ofList rest)

/-- Object literal helper. -/
def JVal.obj (l : List (String × JVal)) : JVal :=
  .vobj (JFields.ofList l)

/-- First binding of key `k` in a field list. -/
def JFields.find : JFields → String → Option JVal
  | .nil, _ => none
  | .cons l v rest, k => if l == k then some v else rest.find k

/-- JavaScript truthiness of a value. -/
def truthyV : JVal → Bool
  | .vnull => false
  | .vbool b => b
  | .vnum n => n != 0
  | .vstr s => !s.data.isEmpty
  | .vobj _ => true

/-- Truthiness of an optional value; `none` plays JavaScript `undefined`. -/
def truthy : Option JVal → Bool
  | none => false
  | some v => truthyV v

/-- Field access on a value: `none` for a missing key and for access on a
non-object, mirroring `payload?.k` optional chaining. -/
def getField : JVal → String → Option JVal
  | .vobj fs, k => fs.find k
  | _, _ => none

/-- Optional-chained path lookup, `payload?.a?.b?...`. -/
def getPath : JVal → List String → Option JVal
  | v, [] => some v
  | v, k :: ks =>
    match getField v k with
    | some w => getPath w ks
    | none => none

/-- JavaScript `a || b` as used in the pickers: keep `a` when truthy, else
fall through to `b` (a `JVal`, since every picker chain ends in a literal). -/
def jsOr (a : Option JVal) (b : JVal) : JVal :=
  if truthy a then a.getD .vnull else b

/-- JavaScript `a ?? b`: keep `a` unless it is null/undefined. -/
def jsNn (a : Option JVal) (b : JVal) : JVal :=
  match a with
  | none => b
  | some .vnull => b
  | some v => v

/-- JavaScript `===` against a string literal. -/
def isStr (v : JVal) (s : String) : Bool :=
  match v with
  | .vstr t => t == s
  | _ => false

/-! ## Text utilities

Character-level re-implementations of the JavaScript string methods the
route uses (`toLowerCase`, `trim`, `includes`); the Lean `String` library
counterparts do not reduce inside the kernel. -/

/-- ASCII lower-casing, as `toLowerCase` acts on the inputs occurring here. -/
def jsLower (s : String) : String :=
  ⟨s.data.map Char.toLower⟩

/-- `trim`: strip whitespace from both ends. -/
def jsTrim (s : String) : String :=
  ⟨((s.data.dropWhile Char.isWhitespace).reverse.dropWhile Char.isWhitespace).reverse⟩

/-- Is `pat` a prefix of the second list? -/
def charsPrefix : List Char → List Char → Bool
  | [], _ => true
  | _ :: _, [] => false
  | a :: as, b :: bs => a == b && charsPrefix as bs

/-- Does the list contain `pat` as a contiguous run? -/
def charsIncl (pat : List Char) : List Char → Bool
  | [] => pat.isEmpty
  | c :: t => charsPrefix pat (c :: t) || charsIncl pat t

/-- `String.prototype.includes`. -/
def strIncludes (s pat : String) : Bool :=
  charsIncl pat.data s.data

/-- Is a string empty or whitespace-only? (what `!s.trim()` tests). -/
def jsBlank (s : String) : Bool :=
  (jsTrim s).data.isEmpty

/-- JavaScript `String(v)` for the values a summary or transcript can hold. -/
def jsString : JVal → String
  | .vnull => "null"
  | .vbool true => "true"
  | .vbool false => "false"
  | .vnum n => toString n
  | .vstr s => s
  | .vobj _ => "[object Object]"

/-! ## Payload pickers

Straight transcriptions of the extraction helpers shared by
`route.ts` lines 9-56 and `part_000` lines 8-65: each is a `||`- or
`??`-chain over a fixed ordered list of candidate paths. -/

/-- `pickCallId`. -/
def pickCallId (p : JVal) : JVal :=
  jsOr (getPath p ["callId"]) <|
  jsOr (getPath p ["call", "id"]) <|
  jsOr (getPath p ["id"]) <|
  jsOr (getPath p ["message", "call", "id"]) <|
  jsOr (getPath p ["message", "callId"]) <|
  jsOr (getPath p ["message", "id"]) .vnull

/-- `pickEventType`; the only picker with a non-null default. -/
def pickEventType (p : JVal) : JVal :=
  jsOr (getPath p ["message", "type"]) <|
  jsOr (getPath p ["type"]) <|
  jsOr (getPath p ["event"]) <|
  jsOr (getPath p ["name"]) <|
  jsOr (getPath p ["status"]) (.vstr "unknown")

/-- `pickSummary` (route.ts ordering: `message.summary` first). -/
def pickSummary (p : JVal) : JVal :=
  jsOr (getPath p ["message", "summary"]) <|
  jsOr (getPath p ["message", "analysis", "summary"]) .vnull

/-- `pickTranscript` (route.ts ordering). -/
def pickTranscript (p : JVal) : JVal :=
  jsOr (getPath p ["message", "transcript"]) <|
  jsOr (getPath p ["message", "artifact", "transcript"]) .vnull

/-- `pickRecordingUrl`. -/
def pickRecordingUrl (p : JVal) : JVal :=
  jsOr (getPath p ["message", "recordingUrl"]) <|
  jsOr (getPath p ["message", "artifact", "recordingUrl"]) <|
  jsOr (getPath p ["message", "artifact", "recording", "mono", "combinedUrl"]) .vnull

/-- `pickVars`; defaults to the empty object, not to null. -/
def pickVars (p : JVal) : JVal :=
  jsOr (getPath p ["message", "artifact", "variableValues"]) <|
  jsOr (getPath p ["message", "variableValues"]) <|
  jsOr (getPath p ["message", "call", "assistantOverrides", "variableValues"]) (.vobj .nil)

/-- `pickSuccessEvaluation` (`part_000` variant A, lines 35-43): the one
picker built from `??`, so falsy-but-present values survive. -/
def pickSuccessEvaluation (p : JVal) : JVal :=
  jsNn (getPath p ["message", "analysis", "successEvaluation"]) <|
  jsNn (getPath p ["analysis", "successEvaluation"]) <|
  jsNn (getPath p ["message", "successEvaluation"]) <|
  jsNn (getPath p ["successEvaluation"]) .vnull

/-- `pickSummary` of `part_000` variant B (line 259): reversed path order
and `??` instead of `||`. -/
def pickSummaryB (p : JVal) : JVal :=
  jsNn (getPath p ["message", "analysis", "summary"]) <|
  jsNn (getPath p ["message", "summary"]) .vnull

/-- `pickTranscript` of `part_000` variant B (line 263). -/
def pickTranscriptB (p : JVal) : JVal :=
  jsNn (getPath p ["message", "artifact", "transcript"]) <|
  jsNn (getPath p ["message", "transcript"]) .vnull

/-- `vars?.candidate_name ?? null` and friends. -/
def jsGetNn (v : JVal) (k : String) : JVal :=
  jsNn (getField v k) .vnull


/-! ## Verdict classifiers

Two classifier embeddings exist in the repository.

`route.ts` lines 65-119 (`geminiPassFail`): returns the TypeScript union
`"pass" | "fail"`, checks credentials first, then blank input, then calls
Gemini and parses the reply by case-insensitive containment, failing
closed on anything else.  The Gemini reply is an oracle argument
(`none` models a thrown transport error, which the caller's catch block
maps to `"fail"`).

`part_000` lines 297-375 (variant B `geminiPassFail`): returns a record
`{verdict, source, raw}`, yields `UNKNOWN`/`missing_key` without
credentials, parses the reply by exact equality with `pass`/`fail` after
trim+lowercase, and otherwise falls back to a keyword heuristic over the
summary text. -/

/-- The two-valued verdict of `route.ts` (`"pass" | "fail"`). -/
inductive RVerdict : Type where
  | pass : RVerdict
  | fail : RVerdict
  deriving DecidableEq, Repr

/-- Lowercase string form of an `RVerdict`. -/
def RVerdict.str : RVerdict → String
  | .pass => "pass"
  | .fail => "fail"

/-- `verdict.toUpperCase()` as used when storing. -/
def RVerdict.upper : RVerdict → String
  | .pass => "PASS"
  | .fail => "FAIL"

/-- `[args.summary, args.transcript].filter(Boolean).join("\n\n")`
(route.ts line 77). -/
def materialOf (summary transcript : JVal) : String :=
  match ([summary, transcript].filter truthyV).map jsString with
  | [] => ""
  | [x] => x
  | [x, y] => x ++ "\n\n" ++ y
  | x :: rest => x ++ "\n\n" ++ String.join rest

/-- route.ts lines 112-118: parse the raw Gemini output by containment,
`fail` winning over `pass`, anything else failing closed. -/
def routeParse (raw : String) : RVerdict :=
  let text := jsLower (jsTrim raw)
  if strIncludes text "fail" then .fail
  else if strIncludes text "pass" then .pass
  else .fail

/-- route.ts `geminiPassFail` (lines 65-119) combined with the caller's
catch block (lines 170-181): credentials check, blank-material check,
then the parsed oracle reply; a thrown transport error (`none`) is
caught and fails closed. -/
def routeGeminiPassFail (keyConfigured : Bool) (summary transcript : JVal)
    (oracle : Option String) : RVerdict :=
  if !keyConfigured then .fail
  else if jsBlank (materialOf summary transcript) then .fail
  else
    match oracle with
    | none => .fail
    | some raw => routeParse raw

/-- The verdict record of `part_000` variant B. -/
structure VerdictResult : Type where
  verdict : String
  source : String
  raw : String
  deriving DecidableEq, Repr

/-- Positive-sentiment markers of the variant-B fallback heuristic
(`part_000` lines 352-359). -/
def heuristicPositive (s : String) : Bool :=
  let l := jsLower s
  strIncludes l "positive" || strIncludes l "great" || strIncludes l "strong" ||
  strIncludes l "recommend" || strIncludes l "no concerns" ||
  strIncludes l "no areas for improvement" || strIncludes l "would rehire"

/-- Negative/red-flag markers of the variant-B fallback heuristic
(`part_000` lines 361-370). -/
def heuristicNegative (s : String) : Bool :=
  let l := jsLower s
  strIncludes l "concern" || strIncludes l "warning" || strIncludes l "red flag" ||
  strIncludes l "would not" || strIncludes l "do not recommend" ||
  strIncludes l "poor" || strIncludes l "unreliable" || strIncludes l "dishonest" ||
  strIncludes l "misconduct"

/-- `part_000` line 372: `negative && !positive ? "FAIL" : "PASS"`. -/
def heuristicVerdict (s : String) : String :=
  if heuristicNegative s && !heuristicPositive s then "FAIL" else "PASS"

/-- Variant B `geminiPassFail` (`part_000` lines 297-375).  `raw` is the
text extracted from the Gemini response body (empty when the response has
none); the transcript only feeds the prompt, never the decision. -/
def bGeminiPassFail (keyConfigured : Bool) (summary : String)
    (raw : String) : VerdictResult :=
  if !keyConfigured then ⟨"UNKNOWN", "missing_key", ""⟩
  else
    let cleaned := jsLower (jsTrim raw)
    if cleaned == "pass" then ⟨"PASS", "gemini", raw⟩
    else if cleaned == "fail" then ⟨"FAIL", "gemini", raw⟩
    else ⟨heuristicVerdict summary, "fallback", raw⟩

/-- Variant B's verdict dispatch in the handler (`part_000` lines
415-418): a falsy summary short-circuits to `FAIL`/`no_summary`, else the
classifier runs on the summary string. -/
def bClassify (keyConfigured : Bool) (summary : JVal) (raw : String) :
    VerdictResult :=
  if truthyV summary then bGeminiPassFail keyConfigured (jsString summary) raw
  else ⟨"FAIL", "no_summary", ""⟩


/-! ## Document store model

The Mongo collections are modelled as lists of structured documents.
`updateFirst` is `updateOne`: it rewrites the first document matching the
filter and reports whether one matched; `upsertCall` adds the
upsert-on-miss behaviour of the `vapi_calls` write. -/

/-- Raw-event audit document (`vapi_events`).  `conversation`/`messages`
are stored by the `route.ts` event write; the historical variants omit
them (`none`). -/
structure EventDoc : Type where
  callId : JVal
  eventType : JVal
  receivedAt : String
  conversation : Option JVal
  messages : Option JVal
  payload : JVal
  deriving DecidableEq

/-- Clean call document (`vapi_calls`), a superset of the fields written
by the route variants; fields a variant does not write stay `none`. -/
structure CallDoc : Type where
  callId : JVal
  createdAt : String
  updatedAt : String
  summary : JVal
  transcript : JVal
  recordingUrl : JVal
  endedReason : JVal
  startedAt : JVal
  endedAt : JVal
  durationSeconds : JVal
  candidate_name : JVal
  company_name : JVal
  geminiVerdict : Option String
  verdict : Option String
  verdictSource : Option String
  verdictRaw : Option String
  successEvaluation : Option JVal
  vapiSuccessEvaluation : Option JVal
  deriving DecidableEq

/-- Entry of the candidate activity log.  The source field is named `at`,
a Lean keyword, hence `atTime`. -/
structure ActivityEntry : Type where
  atTime : String
  label : String
  deriving DecidableEq

/-- Candidate document (`candidates` collection), restricted to the
fields this pipeline reads or writes.  `vapiCallId` is the stored
`vapi.callId` association; `mongoId` the `_id`. -/
structure CandDoc : Type where
  mongoId : String
  vapiCallId : Option JVal
  status : Option String
  stage : Option String
  referenceCall : Option JVal
  tasksReferralContacted : Option String
  tasksReferralResponses : Option String
  lastActivityAt : Option String
  humanCheckNeeded : Option Bool
  humanCheckReasons : Option (List String)
  riskScore : Option Int
  riskFlags : List String
  activity : List ActivityEntry
  deriving DecidableEq

/-- The three collections touched by the webhook. -/
structure Store : Type where
  events : List EventDoc
  calls : List CallDoc
  candidates : List CandDoc
  deriving DecidableEq

/-- `updateOne`: apply `f` to the first element matching `p`; the flag is
`matchedCount == 1`. -/
def updateFirst (p : α → Bool) (f : α → α) : List α → List α × Bool
  | [] => ([], false)
  | x :: xs =>
    if p x then (f x :: xs, true)
    else
      let r := updateFirst p f xs
      (x :: r.1, r.2)

/-- The document a `vapi_calls` upsert starts from on insert: the query
key plus `$setOnInsert createdAt`; every other field is either
overwritten by the `$set` or absent. -/
def CallDoc.fresh (k : JVal) (now : String) : CallDoc where
  callId := k
  createdAt := now
  updatedAt := ""
  summary := .vnull
  transcript := .vnull
  recordingUrl := .vnull
  endedReason := .vnull
  startedAt := .vnull
  endedAt := .vnull
  durationSeconds := .vnull
  candidate_name := .vnull
  company_name := .vnull
  geminiVerdict := none
  verdict := none
  verdictSource := none
  verdictRaw := none
  successEvaluation := none
  vapiSuccessEvaluation := none

/-- `updateOne` with `upsert: true` on `vapi_calls`: update the first
document keyed by `callId`, else insert a fresh one and apply the `$set`. -/
def upsertCall (calls : List CallDoc) (k : JVal) (set : CallDoc → CallDoc)
    (now : String) : List CallDoc :=
  let r := updateFirst (fun d => d.callId == k) set calls
  if r.2 then r.1
  else calls ++ [set (CallDoc.fresh k now)]

/-- `$addToSet`: append unless already present. -/
def addToSet (l : List String) (x : String) : List String :=
  if l.contains x then l else l ++ [x]

/-! ## route.ts handler -/

/-- The `$set` of the `vapi_calls` upsert in `route.ts` lines 184-204. -/
def routeCallUpdateDoc (p : JVal) (k summary transcript recordingUrl
    candidate_name company_name : JVal) (v : RVerdict) (now : String)
    (d : CallDoc) : CallDoc :=
  { d with
    callId := k
    updatedAt := now
    summary := summary
    transcript := transcript
    recordingUrl := recordingUrl
    endedReason := jsNn (getPath p ["message", "endedReason"]) .vnull
    startedAt := jsNn (getPath p ["message", "startedAt"]) .vnull
    endedAt := jsNn (getPath p ["message", "endedAt"]) .vnull
    durationSeconds := jsNn (getPath p ["message", "durationSeconds"]) .vnull
    candidate_name := candidate_name
    company_name := company_name
    geminiVerdict := some v.str }

/-- The candidate `$set`/`$push` of `route.ts` lines 214-241: status is
the constant `CALL_ENDED`, the human-check flag follows the verdict, and
one activity entry is pushed. -/
def routeCandUpdateDoc (k summary transcript recordingUrl : JVal)
    (v : RVerdict) (endedAtJ : JVal) (now : String) (c : CandDoc) : CandDoc :=
  { c with
    lastActivityAt := some now
    status := some "CALL_ENDED"
    referenceCall := some (JVal.obj [("callId", k), ("summary", summary),
      ("transcript", transcript), ("recordingUrl", recordingUrl),
      ("verdict", .vstr v.upper), ("endedAt", endedAtJ)])
    humanCheckNeeded := some (v == .fail)
    humanCheckReasons := some (if v == .fail
      then ["Reference check flagged by Gemini"] else [])
    stage := some "DECISION"
    tasksReferralContacted := some "DONE"
    tasksReferralResponses := some "DONE"
    activity := c.activity ++
      [⟨now, "Reference call ended • Gemini: " ++ v.upper⟩] }

/-- `payload?.message?.conversation ?? payload?.conversation ??
payload?.message?.messagesOpenAIFormatted ?? null` (route.ts lines 140-144). -/
def routeConversation (p : JVal) : JVal :=
  jsNn (getPath p ["message", "conversation"]) <|
  jsNn (getPath p ["conversation"]) <|
  jsNn (getPath p ["message", "messagesOpenAIFormatted"]) .vnull

/-- `payload?.message?.messages ?? payload?.messages ?? null`. -/
def routeMessages (p : JVal) : JVal :=
  jsNn (getPath p ["message", "messages"]) <|
  jsNn (getPath p ["messages"]) .vnull

/-- The audit document inserted into `vapi_events` by `route.ts`
lines 154-161. -/
def routeEventDoc (p : JVal) (now : String) : EventDoc :=
  ⟨pickCallId p, pickEventType p, now, some (routeConversation p),
   some (routeMessages p), p⟩

/-- The terminal-event guard shared by all route variants:
`eventType === "end-of-call-report" && callId`. -/
def isTerminal (p : JVal) : Bool :=
  isStr (pickEventType p) "end-of-call-report" && truthyV (pickCallId p)

/-- `route.ts` `POST` after authentication (lines 131-247): store the raw
event always; on a terminal event with a truthy call id, upsert the call
document and update the candidate matched by the stored `vapi.callId`
association. -/
def routeAfterAuth (st : Store) (body : Option JVal) (keyConfigured : Bool)
    (oracle : Option String) (now : String) : Store :=
  let payload := body.getD (.vobj .nil)
  let callId := pickCallId payload
  let eventType := pickEventType payload
  let summary := pickSummary payload
  let transcript := pickTranscript payload
  let recordingUrl := pickRecordingUrl payload
  let vars := pickVars payload
  let ev : EventDoc := routeEventDoc payload now
  let st1 : Store := { st with events := ev :: st.events }
  if isStr eventType "end-of-call-report" && truthyV callId then
    let candidate_name := jsGetNn vars "candidate_name"
    let company_name := jsGetNn vars "company_name"
    let v := routeGeminiPassFail keyConfigured summary transcript oracle
    let callSet := routeCallUpdateDoc payload callId summary transcript
      recordingUrl candidate_name company_name v now
    let st2 : Store := { st1 with calls := upsertCall st1.calls callId callSet now }
    let endedAtJ := jsNn (getPath payload ["message", "endedAt"]) (.vstr now)
    let candSet := routeCandUpdateDoc callId summary transcript recordingUrl
      v endedAtJ now
    let matchByCall := fun c : CandDoc => c.vapiCallId == some callId
    { st2 with candidates := (updateFirst matchByCall candSet st2.candidates).1 }
  else st1

/-- The optional shared-secret check: pass when no token is configured
(or it is the empty string, falsy in JavaScript), else require an exact
header match. -/
def authOk (configuredToken header : Option String) : Bool :=
  match configuredToken with
  | none => true
  | some e => e.data.isEmpty || header == some e

/-- Full `route.ts` `POST`: an unauthorized request has no side effects. -/
def routePOST (st : Store) (configuredToken header : Option String)
    (body : Option JVal) (keyConfigured : Bool) (oracle : Option String)
    (now : String) : Store :=
  if authOk configuredToken header then
    routeAfterAuth st body keyConfigured oracle now
  else st

/-! ## part_000 handlers (historical variants) -/

/-- Variant A's verdict from Vapi's `successEvaluation`
(`part_000` lines 111-122). -/
def verdictOfSuccessEvaluation (se : JVal) : String :=
  match se with
  | .vstr s =>
    if jsLower s == "true" then "PASS"
    else if jsLower s == "false" then "FAIL"
    else "UNKNOWN"
  | .vbool true => "PASS"
  | .vbool false => "FAIL"
  | _ => "UNKNOWN"

/-- Variant A's candidate status mapping (`part_000` lines 172-177). -/
def statusOfVerdictA (verdict : String) : String :=
  if verdict == "PASS" then "REF_CALL_PASSED"
  else if verdict == "FAIL" then "REF_CALL_FAILED"
  else "REF_CALL_ENDED"

/-- Variant B's candidate status mapping (`part_000` line 476): two-way,
`UNKNOWN` lands on `REF_CALL_FAILED`. -/
def statusOfVerdictB (verdict : String) : String :=
  if verdict == "PASS" then "REF_CALL_PASSED" else "REF_CALL_FAILED"

/-- `typeof vars?.candidate_id === "string" ? vars.candidate_id : null`. -/
def candidateIdOf (vars : JVal) : Option String :=
  match getField vars "candidate_id" with
  | some (.vstr s) => some s
  | _ => none

/-- `ObjectId.isValid` of the mongodb driver on a string: a 12-character
string, or 24 hexadecimal characters. -/
def isValidObjectId (s : String) : Bool :=
  s.data.length == 12 ||
  (s.data.length == 24 && s.data.all fun c =>
    c.isDigit || ('a' ≤ c && c ≤ 'f') || ('A' ≤ c && c ≤ 'F'))

/-- Two-tier candidate identity resolution of `part_000` lines 498-509:
prefer an update keyed by a well-formed explicit `candidate_id`; when it
is absent, malformed, or matches nothing, retry keyed by the stored
`vapi.callId` association (a zero-match `updateOne` leaves the collection
unchanged, so the retry runs on the original state). -/
def resolveAndUpdateCandidates (cands : List CandDoc)
    (candidateIdRaw : Option String) (k : JVal) (upd : CandDoc → CandDoc) :
    List CandDoc :=
  match candidateIdRaw with
  | some s =>
    if isValidObjectId s then
      let r := updateFirst (fun c => c.mongoId == s) upd cands
      if r.2 then r.1
      else (updateFirst (fun c => c.vapiCallId == some k) upd cands).1
    else (updateFirst (fun c => c.vapiCallId == some k) upd cands).1
  | none => (updateFirst (fun c => c.vapiCallId == some k) upd cands).1

/-- The `$set` of the `vapi_calls` upsert in `part_000` variant B
(lines 428-452). -/
def bCallUpdateDoc (p : JVal) (k summary transcript recordingUrl
    vapiSuccessEvaluation candidate_name company_name : JVal)
    (vr : VerdictResult) (now : String) (d : CallDoc) : CallDoc :=
  { d with
    callId := k
    updatedAt := now
    summary := summary
    transcript := transcript
    recordingUrl := recordingUrl
    verdict := some vr.verdict
    verdictSource := some vr.source
    verdictRaw := some vr.raw
    vapiSuccessEvaluation := some vapiSuccessEvaluation
    endedReason := jsNn (getPath p ["message", "endedReason"]) .vnull
    startedAt := jsNn (getPath p ["message", "startedAt"]) .vnull
    endedAt := jsNn (getPath p ["message", "endedAt"]) .vnull
    durationSeconds := jsNn (getPath p ["message", "durationSeconds"]) .vnull
    candidate_name := candidate_name
    company_name := company_name }

/-- The candidate `$set`/`$push`/`$addToSet` of `part_000` variant B
(lines 461-496): two-way status, verdict-independent task completion,
risk score with a set-semantics flag on failure, one activity entry. -/
def bCandUpdateDoc (p : JVal) (k summary transcript recordingUrl
    vapiSuccessEvaluation : JVal) (vr : VerdictResult) (now : String)
    (c : CandDoc) : CandDoc :=
  { c with
    referenceCall := some (JVal.obj [("callId", k), ("summary", summary),
      ("transcript", transcript), ("recordingUrl", recordingUrl),
      ("verdict", .vstr vr.verdict), ("verdictSource", .vstr vr.source),
      ("vapiSuccessEvaluation", vapiSuccessEvaluation),
      ("endedReason", jsNn (getPath p ["message", "endedReason"]) .vnull),
      ("startedAt", jsNn (getPath p ["message", "startedAt"]) .vnull),
      ("endedAt", jsNn (getPath p ["message", "endedAt"]) .vnull),
      ("durationSeconds", jsNn (getPath p ["message", "durationSeconds"]) .vnull)])
    status := some (statusOfVerdictB vr.verdict)
    stage := some "DECISION"
    tasksReferralContacted := some "DONE"
    tasksReferralResponses := some "DONE"
    lastActivityAt := some now
    riskScore := some (if vr.verdict == "FAIL" then 85 else 15)
    riskFlags := if vr.verdict == "FAIL"
      then addToSet c.riskFlags "Reference flagged concerns"
      else c.riskFlags
    activity := c.activity ++ [⟨now, if vr.verdict == "PASS"
      then "Reference call ended (PASS)"
      else "Reference call ended (FAIL)"⟩] }

/-- The audit document inserted into `vapi_events` by `part_000` variant B
(lines 405-410): no `conversation`/`messages` fields. -/
def bEventDoc (p : JVal) (now : String) : EventDoc :=
  ⟨pickCallId p, pickEventType p, now, none, none, p⟩

/-- `part_000` variant B `POST` after authentication (lines 390-512). -/
def bAfterAuth (st : Store) (body : Option JVal) (keyConfigured : Bool)
    (raw : String) (now : String) : Store :=
  let payload := body.getD (.vobj .nil)
  let callId := pickCallId payload
  let eventType := pickEventType payload
  let summary := pickSummaryB payload
  let transcript := pickTranscriptB payload
  let recordingUrl := pickRecordingUrl payload
  let vapiSuccessEvaluation := pickSuccessEvaluation payload
  let vars := pickVars payload
  let ev : EventDoc := bEventDoc payload now
  let st1 : Store := { st with events := ev :: st.events }
  if isStr eventType "end-of-call-report" && truthyV callId then
    let vr := bClassify keyConfigured summary raw
    let callSet := bCallUpdateDoc payload callId summary transcript
      recordingUrl vapiSuccessEvaluation (jsGetNn vars "candidate_name")
      (jsGetNn vars "company_name") vr now
    let st2 : Store := { st1 with calls := upsertCall st1.calls callId callSet now }
    let candSet := bCandUpdateDoc payload callId summary transcript
      recordingUrl vapiSuccessEvaluation vr now
    let cands := resolveAndUpdateCandidates st2.candidates (candidateIdOf vars) callId candSet
    { st2 with candidates := cands }
  else st1

/-- Full variant B `POST` including the shared-secret check. -/
def bPOST (st : Store) (configuredToken header : Option String)
    (body : Option JVal) (keyConfigured : Bool) (raw : String)
    (now : String) : Store :=
  if authOk configuredToken header then
    bAfterAuth st body keyConfigured raw now
  else st

/-! ## Specification-side reformulations and scrubbing helpers -/

/-- Is an optional value null/undefined? -/
def nullish : Option JVal → Bool
  | none => true
  | some .vnull => true
  | _ => false

/-- The value at the first truthy position, else a default: the list-level
reading of a `||`-picker chain. -/
def firstTruthyD (vals : List (Option JVal)) (dflt : JVal) : JVal :=
  match vals.filter truthy with
  | some v :: _ => v
  | _ => dflt

/-- The value at the first non-nullish position, else a default: the
list-level reading of a `??`-picker chain (and the reading the
specification gives to every picker). -/
def firstNnD (vals : List (Option JVal)) (dflt : JVal) : JVal :=
  match vals.filter (fun o => !nullish o) with
  | some v :: _ => v
  | _ => dflt

/-- Erase the per-write timestamp of a call document. -/
def scrubCallUpdatedAt (d : CallDoc) : CallDoc :=
  { d with updatedAt := "" }

/-- Erase every candidate field that legitimately varies across
redeliveries of the same terminal event processed at different times:
`lastActivityAt`, the `referenceCall` blob (whose `endedAt` defaults to
the processing time) and the activity log. -/
def scrubCandVolatile (c : CandDoc) : CandDoc :=
  { c with lastActivityAt := none, referenceCall := none, activity := [] }

/-- Erase only the timestamps the idempotence claim allows ignoring
(`createdAt`/`updatedAt` are not candidate fields; `lastActivityAt` is). -/
def scrubCandClaim (c : CandDoc) : CandDoc :=
  { c with lastActivityAt := none }

/-- The verdict `route.ts` derives for a payload. -/
def routeVerdict (p : JVal) (keyConfigured : Bool) (oracle : Option String) :
    RVerdict :=
  routeGeminiPassFail keyConfigured (pickSummary p) (pickTranscript p) oracle

/-- The `vapi_calls` `$set` of `route.ts`, as a function of the payload. -/
def routeCallSetOf (p : JVal) (keyConfigured : Bool) (oracle : Option String)
    (now : String) : CallDoc → CallDoc :=
  routeCallUpdateDoc p (pickCallId p) (pickSummary p) (pickTranscript p)
    (pickRecordingUrl p) (jsGetNn (pickVars p) "candidate_name")
    (jsGetNn (pickVars p) "company_name") (routeVerdict p keyConfigured oracle) now

/-- The candidate update of `route.ts`, as a function of the payload. -/
def routeCandSetOf (p : JVal) (keyConfigured : Bool) (oracle : Option String)
    (now : String) : CandDoc → CandDoc :=
  routeCandUpdateDoc (pickCallId p) (pickSummary p) (pickTranscript p)
    (pickRecordingUrl p) (routeVerdict p keyConfigured oracle)
    (jsNn (getPath p ["message", "endedAt"]) (.vstr now)) now

/-- The verdict record variant B derives for a payload. -/
def bVerdictOf (p : JVal) (keyConfigured : Bool) (raw : String) : VerdictResult :=
  bClassify keyConfigured (pickSummaryB p) raw

/-- The `vapi_calls` `$set` of variant B, as a function of the payload. -/
def bCallSetOf (p : JVal) (keyConfigured : Bool) (raw : String)
    (now : String) : CallDoc → CallDoc :=
  bCallUpdateDoc p (pickCallId p) (pickSummaryB p) (pickTranscriptB p)
    (pickRecordingUrl p) (pickSuccessEvaluation p)
    (jsGetNn (pickVars p) "candidate_name")
    (jsGetNn (pickVars p) "company_name") (bVerdictOf p keyConfigured raw) now

/-- The candidate update of variant B, as a function of the payload. -/
def bCandSetOf (p : JVal) (keyConfigured : Bool) (raw : String)
    (now : String) : CandDoc → CandDoc :=
  bCandUpdateDoc p (pickCallId p) (pickSummaryB p) (pickTranscriptB p)
    (pickRecordingUrl p) (pickSuccessEvaluation p)
    (bVerdictOf p keyConfigured raw) now

/-! ## General lemmas about the store operations -/

theorem updateFirst_eq_of_all_false {α : Type} (p : α → Bool) (f : α → α) :
    ∀ l : List α, (∀ x ∈ l, p x = false) → updateFirst p f l = (l, false) := by
  intro l
  induction l with
  | nil => intro _; rfl
  | cons x xs ih =>
    intro h
    cases hpx : p x with
    | true => exact absurd hpx (by simp [h x (List.mem_cons_self x xs)])
    | false =>
      simp [updateFirst, hpx, ih (fun y hy => h y (List.mem_cons_of_mem x hy))]

theorem updateFirst_all_false_of_not_found {α : Type} (p : α → Bool) (f : α → α) :
    ∀ l : List α, (updateFirst p f l).2 = false → ∀ x ∈ l, p x = false := by
  intro l
  induction l with
  | nil => intro _ x hx; cases hx
  | cons y ys ih =>
    intro h x hx
    cases hpy : p y with
    | true => simp [updateFirst, hpy] at h
    | false =>
      simp only [updateFirst, hpy, Bool.false_eq_true, if_false] at h
      rcases List.mem_cons.mp hx with rfl | hmem
      · exact hpy
      · exact ih h x hmem

theorem updateFirst_fst_of_not_found {α : Type} (p : α → Bool) (f : α → α)
    (l : List α) (h : (updateFirst p f l).2 = false) :
    (updateFirst p f l).1 = l := by
  rw [updateFirst_eq_of_all_false p f l (updateFirst_all_false_of_not_found p f l h)]

theorem updateFirst_append_found {α : Type} (p : α → Bool) (f : α → α) (a : α)
    (ha : p a = true) :
    ∀ l : List α, (∀ x ∈ l, p x = false) →
      updateFirst p f (l ++ [a]) = (l ++ [f a], true) := by
  intro l
  induction l with
  | nil => intro _; simp [updateFirst, ha]
  | cons x xs ih =>
    intro h
    cases hpx : p x with
    | true => exact absurd hpx (by simp [h x (List.mem_cons_self x xs)])
    | false =>
      simp [updateFirst, hpx, ih (fun y hy => h y (List.mem_cons_of_mem x hy))]

theorem updateFirst_twice_found {α : Type} (q : α → Bool) (f1 f2 : α → α)
    (hq : ∀ x, q x = true → q (f1 x) = true) :
    ∀ l : List α, (updateFirst q f1 l).2 = true →
      (updateFirst q f2 (updateFirst q f1 l).1).2 = true := by
  intro l
  induction l with
  | nil => intro h; cases h
  | cons x xs ih =>
    cases hx : q x with
    | true => intro _; simp [updateFirst, hx, hq x hx]
    | false =>
      intro h
      have h' : (updateFirst q f1 xs).2 = true := by
        simpa [updateFirst, hx] using h
      simpa [updateFirst, hx] using ih h'

theorem updateFirst_twice_map {α β : Type} (q : α → Bool) (f1 f2 : α → α)
    (g : α → β) (hq : ∀ x, q x = true → q (f1 x) = true)
    (hg : ∀ x, g (f2 (f1 x)) = g (f1 x)) :
    ∀ l : List α,
      ((updateFirst q f2 (updateFirst q f1 l).1).1).map g
        = ((updateFirst q f1 l).1).map g := by
  intro l
  induction l with
  | nil => rfl
  | cons x xs ih =>
    cases hx : q x with
    | true => simp [updateFirst, hx, hq x hx, hg x]
    | false =>
      simp only [updateFirst, hx, Bool.false_eq_true, if_false, List.map_cons]
      rw [ih]

theorem updateFirst_found_exists {α : Type} (p : α → Bool) (f : α → α) :
    ∀ l : List α, (updateFirst p f l).2 = true →
      ∃ x ∈ l, p x = true ∧ f x ∈ (updateFirst p f l).1 := by
  intro l
  induction l with
  | nil => intro h; cases h
  | cons x xs ih =>
    cases hx : p x with
    | true =>
      intro _
      exact ⟨x, List.mem_cons_self x xs, hx, by simp [updateFirst, hx]⟩
    | false =>
      simp only [updateFirst, hx, Bool.false_eq_true, if_false]
      intro h
      obtain ⟨y, hy, hpy, hfy⟩ := ih h
      exact ⟨y, List.mem_cons_of_mem x hy, hpy, List.mem_cons_of_mem x hfy⟩

theorem upsert_twice_map {β : Type} (k : JVal) (set1 set2 : CallDoc → CallDoc)
    (g : CallDoc → β) (now1 now2 : String) (calls : List CallDoc)
    (h1 : ∀ d, ((set1 d).callId == k) = true)
    (hg : ∀ d, g (set2 (set1 d)) = g (set1 d)) :
    (upsertCall (upsertCall calls k set1 now1) k set2 now2).map g
      = (upsertCall calls k set1 now1).map g := by
  unfold upsertCall
  cases hr : (updateFirst (fun d => d.callId == k) set1 calls).2 with
  | true =>
    have hfound := updateFirst_twice_found (fun d => d.callId == k) set1 set2
      (fun x _ => h1 x) calls hr
    have hmap := updateFirst_twice_map (fun d => d.callId == k) set1 set2 g
      (fun x _ => h1 x) hg calls
    simp [hr, hfound, hmap]
  | false =>
    have hall := updateFirst_all_false_of_not_found _ set1 calls hr
    have happ := updateFirst_append_found (fun d => d.callId == k) set2
      (set1 (CallDoc.fresh k now1)) (h1 _) calls hall
    simp [hr, happ, List.map_append, hg]

theorem upsert_exists_key (calls : List CallDoc) (k : JVal)
    (set : CallDoc → CallDoc) (now : String)
    (hset : ∀ d, (set d).callId = k) :
    ∃ d ∈ upsertCall calls k set now, d.callId = k := by
  unfold upsertCall
  cases hr : (updateFirst (fun d => d.callId == k) set calls).2 with
  | true =>
    obtain ⟨x, _, _, hfx⟩ := updateFirst_found_exists _ set calls hr
    simp only [hr, if_true]
    exact ⟨set x, hfx, hset x⟩
  | false =>
    simp only [hr, Bool.false_eq_true, if_false]
    exact ⟨set (CallDoc.fresh k now),
      List.mem_append_right _ (List.mem_singleton.mpr rfl), hset _⟩

theorem resolve_noop (cands : List CandDoc) (cid : Option String) (k : JVal)
    (upd : CandDoc → CandDoc)
    (h2 : ∀ c ∈ cands, (c.vapiCallId == some k) = false)
    (h1 : ∀ s, cid = some s → ∀ c ∈ cands, (c.mongoId == s) = false) :
    resolveAndUpdateCandidates cands cid k upd = cands := by
  have ht2 : (updateFirst (fun c => c.vapiCallId == some k) upd cands).1 = cands := by
    rw [updateFirst_eq_of_all_false _ upd cands h2]
  cases cid with
  | none => simpa [resolveAndUpdateCandidates] using ht2
  | some s =>
    cases hv : isValidObjectId s with
    | true =>
      have h0 := updateFirst_eq_of_all_false (fun c => c.mongoId == s) upd cands (h1 s rfl)
      simp [resolveAndUpdateCandidates, hv, h0, ht2]
    | false => simp [resolveAndUpdateCandidates, hv, ht2]

theorem routeAfterAuth_terminal (st : Store) (body : Option JVal)
    (key : Bool) (oracle : Option String) (now : String)
    (h : isTerminal (body.getD (.vobj .nil)) = true) :
    routeAfterAuth st body key oracle now =
      ⟨routeEventDoc (body.getD (.vobj .nil)) now :: st.events,
       upsertCall st.calls (pickCallId (body.getD (.vobj .nil)))
         (routeCallSetOf (body.getD (.vobj .nil)) key oracle now) now,
       (updateFirst
         (fun c => c.vapiCallId == some (pickCallId (body.getD (.vobj .nil))))
         (routeCandSetOf (body.getD (.vobj .nil)) key oracle now)
         st.candidates).1⟩ := by
  have h' : (isStr (pickEventType (body.getD (.vobj .nil))) "end-of-call-report" &&
      truthyV (pickCallId (body.getD (.vobj .nil)))) = true := by
    simpa [isTerminal] using h
  simp [routeAfterAuth, routeCallSetOf, routeCandSetOf, routeVerdict, h']

theorem bAfterAuth_terminal (st : Store) (body : Option JVal)
    (key : Bool) (raw : String) (now : String)
    (h : isTerminal (body.getD (.vobj .nil)) = true) :
    bAfterAuth st body key raw now =
      ⟨bEventDoc (body.getD (.vobj .nil)) now :: st.events,
       upsertCall st.calls (pickCallId (body.getD (.vobj .nil)))
         (bCallSetOf (body.getD (.vobj .nil)) key raw now) now,
       resolveAndUpdateCandidates st.candidates
         (candidateIdOf (pickVars (body.getD (.vobj .nil))))
         (pickCallId (body.getD (.vobj .nil)))
         (bCandSetOf (body.getD (.vobj .nil)) key raw now)⟩ := by
  have h' : (isStr (pickEventType (body.getD (.vobj .nil))) "end-of-call-report" &&
      truthyV (pickCallId (body.getD (.vobj .nil)))) = true := by
    simpa [isTerminal] using h
  simp [bAfterAuth, bCallSetOf, bCandSetOf, bVerdictOf, h']

theorem firstTruthyD_cons (a : Option JVal) (vs : List (Option JVal)) (dflt : JVal) :
    firstTruthyD (a :: vs) dflt = jsOr a (firstTruthyD vs dflt) := by
  cases a with
  | none => simp [firstTruthyD, jsOr, truthy]
  | some v =>
    cases hv : truthyV v with
    | true => simp [firstTruthyD, jsOr, truthy, hv]
    | false => simp [firstTruthyD, jsOr, truthy, hv]

theorem firstNnD_cons (a : Option JVal) (vs : List (Option JVal)) (dflt : JVal) :
    firstNnD (a :: vs) dflt = jsNn a (firstNnD vs dflt) := by
  cases a with
  | none => simp [firstNnD, jsNn, nullish]
  | some v => cases v <;> simp [firstNnD, jsNn, nullish]

theorem firstTruthyD_nil (dflt : JVal) : firstTruthyD [] dflt = dflt := rfl

theorem firstNnD_nil (dflt : JVal) : firstNnD [] dflt = dflt := rfl

/-! ## Sample data used by concrete counterexamples and witnesses -/

/-- A candidate whose stored association points at call `c1`. -/
def sampleCand : CandDoc where
  mongoId := "aaaaaaaaaaaaaaaaaaaaaaaa"
  vapiCallId := some (.vstr "c1")
  status := none
  stage := none
  referenceCall := none
  tasksReferralContacted := none
  tasksReferralResponses := none
  lastActivityAt := none
  humanCheckNeeded := none
  humanCheckReasons := none
  riskScore := none
  riskFlags := []
  activity := []

/-- A minimal terminal (end-of-call-report) payload for call `c1`. -/
def terminalPayload : JVal :=
  JVal.obj [("callId", .vstr "c1"),
    ("message", JVal.obj [("type", .vstr "end-of-call-report"),
      ("summary", .vstr "great")])]

/-- Candidate statuses of a store, in order. -/
def candStatuses (st : Store) : List (Option String) :=
  st.candidates.map fun c => c.status

/-- Candidate activity-log lengths of a store, in order. -/
def candActivityLengths (st : Store) : List Nat :=
  st.candidates.map fun c => c.activity.length

/-! ## Claim C1 -/

/-- Claim C1 is false on the code: the summary `"Great, but one concern"`
carries both a positive marker (`great`) and a negative marker
(`concern`), yet the fallback heuristic resolves it to `PASS`, not
`FAIL` — `negative && !positive` makes the positive marker win ties, also
on the classifier path that reaches the heuristic. -/
theorem c1_counterexample :
    heuristicPositive "Great, but one concern" = true ∧
    heuristicNegative "Great, but one concern" = true ∧
    heuristicVerdict "Great, but one concern" = "PASS" ∧
    bGeminiPassFail true "Great, but one concern" "maybe"
      = ⟨"PASS", "fallback", "maybe"⟩ := by
  refine ⟨by decide, by decide, by decide, by decide⟩

/-- Claim C1, amended: when the classifier's raw output is neither `pass`
nor `fail` after trim+lowercase, the keyword heuristic resolves a summary
containing both a positive and a negative marker to `PASS`: positive
markers win ties (the heuristic returns `FAIL` only when a negative
marker occurs and no positive one does). -/
theorem c1_amended :
    (∀ s : String, heuristicPositive s = true → heuristicVerdict s = "PASS") ∧
    (∀ summary raw : String,
      jsLower (jsTrim raw) ≠ "pass" → jsLower (jsTrim raw) ≠ "fail" →
      heuristicPositive summary = true → heuristicNegative summary = true →
      bGeminiPassFail true summary raw = ⟨"PASS", "fallback", raw⟩) := by
  constructor
  · intro s hp
    simp [heuristicVerdict, hp]
  · intro summary raw h1 h2 hp _
    simp [bGeminiPassFail, h1, h2, heuristicVerdict, hp]

/-- Witness for `c1_amended` at a concrete tied summary and an
unparseable raw output. -/
theorem c1_amended_witness :
    bGeminiPassFail true "Great, but one concern" "maybe"
      = ⟨"PASS", "fallback", "maybe"⟩ :=
  c1_amended.2 "Great, but one concern" "maybe"
    (by decide) (by decide) (by decide) (by decide)

/-! ## Claim C3 -/

/-- Claim C3 is false on the code: a whitespace-only (blank but truthy)
summary with no transcript is not caught by the missing-input rule of the
source-tagged classifier — with credentials it reaches Gemini and can
even return `PASS`, and without credentials it returns source
`missing_key`, not the missing-input tag. -/
theorem c3_counterexample :
    jsBlank " " = true ∧
    bClassify true (.vstr " ") "pass" = ⟨"PASS", "gemini", "pass"⟩ ∧
    bClassify false (.vstr " ") "" = ⟨"UNKNOWN", "missing_key", ""⟩ := by
  refine ⟨by decide, by decide, by decide⟩

/-- Claim C3, amended: the missing-input rule fires exactly on a falsy
summary (absent, null, or the empty string) in the source-tagged variant,
where it does precede the credentials check and ignores all other fields;
in `route.ts` any blank material (whitespace-only included) yields the
fail verdict regardless of credentials, but without a source tag and with
the credentials check performed first. -/
theorem c3_amended :
    (∀ (key : Bool) (s : JVal) (raw : String), truthyV s = false →
      bClassify key s raw = ⟨"FAIL", "no_summary", ""⟩) ∧
    (∀ (key : Bool) (s t : JVal) (oracle : Option String),
      jsBlank (materialOf s t) = true →
      routeGeminiPassFail key s t oracle = .fail) := by
  constructor
  · intro key s raw h
    simp [bClassify, h]
  · intro key s t oracle h
    cases key with
    | false => rfl
    | true => simp [routeGeminiPassFail, h]

/-- Witness for `c3_amended`: an absent summary and a blank-material
input, each resolved fail-closed. -/
theorem c3_amended_witness :
    bClassify true JVal.vnull "pass" = ⟨"FAIL", "no_summary", ""⟩ ∧
    routeGeminiPassFail true (.vstr " ") .vnull (some "pass") = .fail :=
  ⟨c3_amended.1 true .vnull "pass" (by decide),
   c3_amended.2 true (.vstr " ") .vnull (some "pass") (by decide)⟩

/-! ## Claim C4 -/

/-- Claim C4 is false on the code: with non-blank input text and no
credentials, the source-tagged classifier returns verdict `UNKNOWN` with
source `missing_key`, not verdict `FAIL`. -/
theorem c4_counterexample :
    jsBlank "Great, strong recommend" = false ∧
    bGeminiPassFail false "Great, strong recommend" "anything"
      = ⟨"UNKNOWN", "missing_key", ""⟩ ∧
    ("UNKNOWN" : String) ≠ "FAIL" := by
  refine ⟨by decide, by decide, by decide⟩

/-- Claim C4, amended: without credentials, `route.ts` returns the fail
verdict and the source-tagged variant returns `UNKNOWN`/`missing_key`;
both are independent of the classifier reply (no external call) and never
reach the fallback heuristic. -/
theorem c4_amended (s t : JVal) (oracle oracleAlt : Option String)
    (summary raw rawAlt : String) :
    routeGeminiPassFail false s t oracle = .fail ∧
    routeGeminiPassFail false s t oracle = routeGeminiPassFail false s t oracleAlt ∧
    bGeminiPassFail false summary raw = ⟨"UNKNOWN", "missing_key", ""⟩ ∧
    bGeminiPassFail false summary raw = bGeminiPassFail false summary rawAlt := by
  refine ⟨rfl, rfl, rfl, rfl⟩

/-! ## Claim C5 -/

/-- Claim C5 is false on the code: the heuristic-bearing classifier
parses by exact equality, not containment — raw output `"Fail."` contains
`fail` yet falls through to the heuristic and can come out `PASS`. -/
theorem c5_counterexample :
    strIncludes (jsLower (jsTrim "Fail.")) "fail" = true ∧
    bGeminiPassFail true "great work" "Fail." = ⟨"PASS", "fallback", "Fail."⟩ := by
  refine ⟨by decide, by decide⟩

/-- Claim C5, amended: the two parsing styles live in different variants.
`route.ts` parses case-insensitively by containment (`fail` beating
`pass`) but returns a fixed `fail` — never a heuristic — when neither
token occurs (whitespace-only included); the heuristic fall-through
belongs to the variant that parses by exact equality of the
trimmed lowercased output. -/
theorem c5_amended :
    (∀ raw : String, strIncludes (jsLower (jsTrim raw)) "fail" = true →
      routeParse raw = .fail) ∧
    (∀ raw : String, strIncludes (jsLower (jsTrim raw)) "fail" = false →
      strIncludes (jsLower (jsTrim raw)) "pass" = true → routeParse raw = .pass) ∧
    (∀ raw : String, strIncludes (jsLower (jsTrim raw)) "fail" = false →
      strIncludes (jsLower (jsTrim raw)) "pass" = false → routeParse raw = .fail) ∧
    (∀ summary raw : String,
      jsLower (jsTrim raw) ≠ "pass" → jsLower (jsTrim raw) ≠ "fail" →
      bGeminiPassFail true summary raw
        = ⟨heuristicVerdict summary, "fallback", raw⟩) ∧
    routeParse " " = .fail := by
  refine ⟨?_, ?_, ?_, ?_, by decide⟩
  · intro raw h
    simp [routeParse, h]
  · intro raw h1 h2
    simp [routeParse, h1, h2]
  · intro raw h1 h2
    simp [routeParse, h1, h2]
  · intro summary raw h1 h2
    simp [bGeminiPassFail, h1, h2]

/-- Witness for `c5_amended`: `"Fail."` parses to `fail` in `route.ts`
and reaches the heuristic in the other variant on a different raw
output. -/
theorem c5_amended_witness :
    routeParse "Fail." = .fail ∧
    bGeminiPassFail true "poor work" "hmm"
      = ⟨heuristicVerdict "poor work", "fallback", "hmm"⟩ :=
  ⟨c5_amended.1 "Fail." (by decide),
   c5_amended.2.2.2.1 "poor work" "hmm" (by decide) (by decide)⟩

/-! ## Claim C7 -/

/-- Claim C7 is false on the code: the `||`-based pickers skip falsy but
non-null values — a payload holding the empty string at the
highest-priority `callId` path resolves to the value of the next path,
not to the empty string; and the variables picker defaults to the empty
object, not to null. -/
theorem c7_counterexample :
    getPath (JVal.obj [("callId", .vstr ""), ("call", JVal.obj [("id", .vstr "x")])])
      ["callId"] = some (.vstr "") ∧
    nullish (some (JVal.vstr "")) = false ∧
    pickCallId (JVal.obj [("callId", .vstr ""), ("call", JVal.obj [("id", .vstr "x")])])
      = .vstr "x" ∧
    JVal.vstr "x" ≠ .vstr "" ∧
    pickVars (JVal.obj []) = .vobj .nil ∧
    JVal.vobj .nil ≠ .vnull := by
  refine ⟨by decide, by decide, by decide, by decide, by decide, by decide⟩

/-- Claim C7, amended: every picker is a pure total function over its
fixed ordered path list, but the `||`-based pickers return the value at
the first path holding a *truthy* value (not merely non-null), with
defaults null, `"unknown"` for the event type, and the empty object for
the call variables; only `successEvaluation` is resolved by first
non-nullish value. -/
theorem c7_amended (p : JVal) :
    pickCallId p = firstTruthyD [getPath p ["callId"], getPath p ["call", "id"],
      getPath p ["id"], getPath p ["message", "call", "id"],
      getPath p ["message", "callId"], getPath p ["message", "id"]] .vnull ∧
    pickEventType p = firstTruthyD [getPath p ["message", "type"],
      getPath p ["type"], getPath p ["event"], getPath p ["name"],
      getPath p ["status"]] (.vstr "unknown") ∧
    pickSummary p = firstTruthyD [getPath p ["message", "summary"],
      getPath p ["message", "analysis", "summary"]] .vnull ∧
    pickTranscript p = firstTruthyD [getPath p ["message", "transcript"],
      getPath p ["message", "artifact", "transcript"]] .vnull ∧
    pickRecordingUrl p = firstTruthyD [getPath p ["message", "recordingUrl"],
      getPath p ["message", "artifact", "recordingUrl"],
      getPath p ["message", "artifact", "recording", "mono", "combinedUrl"]] .vnull ∧
    pickVars p = firstTruthyD [getPath p ["message", "artifact", "variableValues"],
      getPath p ["message", "variableValues"],
      getPath p ["message", "call", "assistantOverrides", "variableValues"]]
      (.vobj .nil) ∧
    pickSuccessEvaluation p
      = firstNnD [getPath p ["message", "analysis", "successEvaluation"],
        getPath p ["analysis", "successEvaluation"],
        getPath p ["message", "successEvaluation"],
        getPath p ["successEvaluation"]] .vnull := by
  refine ⟨?_, ?_, ?_, ?_, ?_, ?_, ?_⟩ <;>
    simp [pickCallId, pickEventType, pickSummary, pickTranscript,
      pickRecordingUrl, pickVars, pickSuccessEvaluation,
      firstTruthyD_cons, firstNnD_cons, firstTruthyD_nil, firstNnD_nil]

/-! ## Claim C2 -/

/-- Claim C2 is false on the code: the `route.ts` candidate update writes
the constant status `CALL_ENDED` even for a pass verdict, so the
three-state verdict mapping is not the status this transition writes. -/
theorem c2_counterexample :
    routeVerdict terminalPayload true (some "pass") = .pass ∧
    candStatuses (routeAfterAuth ⟨[], [], [sampleCand]⟩ (some terminalPayload)
      true (some "pass") "T") = [some "CALL_ENDED"] ∧
    (some "CALL_ENDED" : Option String) ≠ some "REF_CALL_PASSED" := by
  refine ⟨by decide, by decide, by decide⟩

/-- Claim C2, amended: the verdict-to-status mapping
`PASS ↦ REF_CALL_PASSED`, `FAIL ↦ REF_CALL_FAILED`, otherwise
`REF_CALL_ENDED` is what the `successEvaluation`-based variant writes;
the source-tagged Gemini variant collapses every non-`PASS` verdict
(including `UNKNOWN`) to `REF_CALL_FAILED`; and the current `route.ts`
always writes the generic `CALL_ENDED`. -/
theorem c2_amended :
    statusOfVerdictA "PASS" = "REF_CALL_PASSED" ∧
    statusOfVerdictA "FAIL" = "REF_CALL_FAILED" ∧
    (∀ v : String, v ≠ "PASS" → v ≠ "FAIL" → statusOfVerdictA v = "REF_CALL_ENDED") ∧
    (∀ v : String, v ≠ "PASS" → statusOfVerdictB v = "REF_CALL_FAILED") ∧
    (∀ (p k s t r vse : JVal) (vr : VerdictResult) (now : String) (c : CandDoc),
      (bCandUpdateDoc p k s t r vse vr now c).status
        = some (statusOfVerdictB vr.verdict)) ∧
    (∀ (k s t r e : JVal) (v : RVerdict) (now : String) (c : CandDoc),
      (routeCandUpdateDoc k s t r v e now c).status = some "CALL_ENDED") := by
  refine ⟨by decide, by decide, ?_, ?_, ?_, ?_⟩
  · intro v h1 h2
    simp [statusOfVerdictA, h1, h2]
  · intro v h1
    simp [statusOfVerdictB, h1]
  · intros
    rfl
  · intros
    rfl

/-- Witness for `c2_amended` at the verdict-unknown input. -/
theorem c2_amended_witness :
    statusOfVerdictA "UNKNOWN" = "REF_CALL_ENDED" ∧
    statusOfVerdictB "UNKNOWN" = "REF_CALL_FAILED" :=
  ⟨c2_amended.2.2.1 "UNKNOWN" (by decide) (by decide),
   c2_amended.2.2.2.1 "UNKNOWN" (by decide)⟩

/-! ## Claim C10 -/

/-- Claim C10: the `route.ts` candidate update sets
`humanCheckNeeded = true` with the one-element reason list exactly on a
fail verdict, and `false` with the empty list on a pass verdict; since
the `$set` overwrites both fields, a passing redelivery after a failing
one clears the human-review flag. -/
theorem c10_human_check (c : CandDoc) (k s t r e k2 s2 t2 r2 e2 : JVal)
    (now now2 : String) :
    (∀ v : RVerdict,
      ((routeCandUpdateDoc k s t r v e now c).humanCheckNeeded = some true ↔ v = .fail)) ∧
    (∀ v : RVerdict,
      ((routeCandUpdateDoc k s t r v e now c).humanCheckReasons
        = some ["Reference check flagged by Gemini"] ↔ v = .fail)) ∧
    (∀ v : RVerdict,
      ((routeCandUpdateDoc k s t r v e now c).humanCheckReasons = some [] ↔ v = .pass)) ∧
    (routeCandUpdateDoc k2 s2 t2 r2 .pass e2 now2
      (routeCandUpdateDoc k s t r .fail e now c)).humanCheckNeeded = some false ∧
    (routeCandUpdateDoc k2 s2 t2 r2 .pass e2 now2
      (routeCandUpdateDoc k s t r .fail e now c)).humanCheckReasons = some [] := by
  refine ⟨?_, ?_, ?_, rfl, rfl⟩ <;>
    · intro v
      cases v <;> simp [routeCandUpdateDoc]

/-! ## Claim C9 -/

/-- Claim C9: every authenticated request — terminal or not, body
unparseable (stored as the empty object) or not — prepends exactly one
audit document to the raw-event log and leaves every existing entry in
place. -/
theorem c9_audit_log (st : Store) (tok hdr : Option String)
    (body : Option JVal) (key : Bool) (oracle : Option String) (now : String)
    (hauth : authOk tok hdr = true) :
    (routePOST st tok hdr body key oracle now).events
      = routeEventDoc (body.getD (.vobj .nil)) now :: st.events := by
  have hpost : routePOST st tok hdr body key oracle now
      = routeAfterAuth st body key oracle now := by
    simp [routePOST, hauth]
  rw [hpost]
  cases hterm : isTerminal (body.getD (.vobj .nil)) with
  | true => rw [routeAfterAuth_terminal st body key oracle now hterm]
  | false =>
    have h' : (isStr (pickEventType (body.getD (.vobj .nil))) "end-of-call-report" &&
        truthyV (pickCallId (body.getD (.vobj .nil)))) = false := by
      simpa [isTerminal] using hterm
    simp [routeAfterAuth, h']

/-- Witness for `c9_audit_log`: an unauthenticated-token-free request
with an unparseable body stores one empty-object audit entry. -/
theorem c9_audit_log_witness :
    (routePOST ⟨[], [], []⟩ none none none false none "T").events
      = [routeEventDoc (.vobj .nil) "T"] :=
  c9_audit_log ⟨[], [], []⟩ none none none false none "T" (by decide)

/-! ## Claim C8 -/

/-- Claim C8: candidate identity resolution is two-tiered.  The tier-one
update keyed by `_id` runs exactly when the explicit `candidate_id` is
present and well-formed and it wins when it matches; an absent or
malformed identifier, or a zero-match tier one, falls back to the update
keyed by the stored `vapi.callId` association on the unchanged
collection; and when both tiers match nothing the handler still returns
normally with the candidates untouched, the raw event appended, and the
call record upserted. -/
theorem c8_two_tier_resolution :
    (∀ (cands : List CandDoc) (s : String) (k : JVal) (upd : CandDoc → CandDoc),
      (isValidObjectId s = true →
        (updateFirst (fun c => c.mongoId == s) upd cands).2 = true →
        resolveAndUpdateCandidates cands (some s) k upd
          = (updateFirst (fun c => c.mongoId == s) upd cands).1) ∧
      (isValidObjectId s = false →
        resolveAndUpdateCandidates cands (some s) k upd
          = (updateFirst (fun c => c.vapiCallId == some k) upd cands).1) ∧
      (resolveAndUpdateCandidates cands none k upd
        = (updateFirst (fun c => c.vapiCallId == some k) upd cands).1) ∧
      ((updateFirst (fun c => c.mongoId == s) upd cands).2 = false →
        resolveAndUpdateCandidates cands (some s) k upd
          = (updateFirst (fun c => c.vapiCallId == some k) upd cands).1)) ∧
    (∀ (st : Store) (body : Option JVal) (key : Bool) (raw now : String),
      isTerminal (body.getD (.vobj .nil)) = true →
      (∀ c ∈ st.candidates,
        (c.vapiCallId == some (pickCallId (body.getD (.vobj .nil)))) = false) →
      (∀ s, candidateIdOf (pickVars (body.getD (.vobj .nil))) = some s →
        ∀ c ∈ st.candidates, (c.mongoId == s) = false) →
      (bAfterAuth st body key raw now).candidates = st.candidates ∧
      (bAfterAuth st body key raw now).events
        = bEventDoc (body.getD (.vobj .nil)) now :: st.events ∧
      ∃ d ∈ (bAfterAuth st body key raw now).calls,
        d.callId = pickCallId (body.getD (.vobj .nil))) := by
  constructor
  · intro cands s k upd
    refine ⟨?_, ?_, rfl, ?_⟩
    · intro hv hf
      simp [resolveAndUpdateCandidates, hv, hf]
    · intro hv
      simp [resolveAndUpdateCandidates, hv]
    · intro hnf
      cases hv : isValidObjectId s with
      | true => simp [resolveAndUpdateCandidates, hv, hnf]
      | false => simp [resolveAndUpdateCandidates, hv]
  · intro st body key raw now hterm h2 h1
    rw [bAfterAuth_terminal st body key raw now hterm]
    refine ⟨resolve_noop st.candidates _ _ _ h2 h1, rfl, ?_⟩
    exact upsert_exists_key st.calls _ _ now (fun d => rfl)

/-- A candidate that matches neither a valid explicit identifier nor the
`c1` call association. -/
def strayCand : CandDoc where
  mongoId := "bbbbbbbbbbbbbbbbbbbbbbbb"
  vapiCallId := some (.vstr "other-call")
  status := none
  stage := none
  referenceCall := none
  tasksReferralContacted := none
  tasksReferralResponses := none
  lastActivityAt := none
  humanCheckNeeded := none
  humanCheckReasons := none
  riskScore := none
  riskFlags := []
  activity := []

/-- A terminal payload whose call variables carry a malformed
`candidate_id`. -/
def malformedIdPayload : JVal :=
  JVal.obj [("callId", .vstr "c1"),
    ("message", JVal.obj [("type", .vstr "end-of-call-report"),
      ("summary", .vstr "great"),
      ("artifact", JVal.obj [("variableValues",
        JVal.obj [("candidate_id", .vstr "not-an-objectid")])])])]

/-- Witness for `c8_two_tier_resolution`: a malformed `candidate_id` and
a stale association leave the candidates untouched while the event and
call record are still stored. -/
theorem c8_two_tier_resolution_witness :
    (bAfterAuth ⟨[], [], [strayCand]⟩ (some malformedIdPayload) false "x" "T").candidates
      = (⟨[], [], [strayCand]⟩ : Store).candidates ∧
    (bAfterAuth ⟨[], [], [strayCand]⟩ (some malformedIdPayload) false "x" "T").events
      = bEventDoc malformedIdPayload "T" :: (⟨[], [], [strayCand]⟩ : Store).events ∧
    ∃ d ∈ (bAfterAuth ⟨[], [], [strayCand]⟩ (some malformedIdPayload) false "x" "T").calls,
      d.callId = pickCallId malformedIdPayload :=
  c8_two_tier_resolution.2 ⟨[], [], [strayCand]⟩ (some malformedIdPayload)
    false "x" "T" (by decide) (by decide)
    (by
      intro s hs
      have hc : candidateIdOf (pickVars ((some malformedIdPayload).getD
          (.vobj .nil))) = some "not-an-objectid" := by decide
      rw [hc] at hs
      injection hs with h
      subst h
      decide)

/-! ## Claim C6 -/

/-- Claim C6 is false on the code: redelivering the same terminal event
(here even at the same instant) pushes a second activity entry onto the
candidate, so the final candidate state differs from the single-delivery
state by more than the `createdAt`/`updatedAt`/`lastActivityAt`
timestamps. -/
theorem c6_counterexample :
    candActivityLengths (routeAfterAuth ⟨[], [], [sampleCand]⟩
      (some terminalPayload) true (some "pass") "T") = [1] ∧
    candActivityLengths (routeAfterAuth (routeAfterAuth ⟨[], [], [sampleCand]⟩
      (some terminalPayload) true (some "pass") "T")
      (some terminalPayload) true (some "pass") "T") = [2] ∧
    (routeAfterAuth (routeAfterAuth ⟨[], [], [sampleCand]⟩
      (some terminalPayload) true (some "pass") "T")
      (some terminalPayload) true (some "pass") "T").candidates.map scrubCandClaim
      ≠ (routeAfterAuth ⟨[], [], [sampleCand]⟩
      (some terminalPayload) true (some "pass") "T").candidates.map scrubCandClaim := by
  refine ⟨by decide, by decide, by decide⟩

/-- Claim C6, amended: redelivery of the same terminal event is
idempotent for the call record — identical up to `updatedAt`, with
`createdAt` written only by the first insert — and for every candidate
field except the volatile ones: `lastActivityAt`, the `referenceCall`
blob (whose `endedAt` defaults to the processing time) and the activity
log, which grows by one pushed entry per delivery. -/
theorem c6_amended (st : Store) (body : Option JVal) (key : Bool)
    (oracle : Option String) (now1 now2 : String)
    (hterm : isTerminal (body.getD (.vobj .nil)) = true) :
    ((routeAfterAuth (routeAfterAuth st body key oracle now1) body key oracle
        now2).calls.map scrubCallUpdatedAt
      = (routeAfterAuth st body key oracle now1).calls.map scrubCallUpdatedAt) ∧
    ((routeAfterAuth (routeAfterAuth st body key oracle now1) body key oracle
        now2).calls.map (fun d => d.createdAt)
      = (routeAfterAuth st body key oracle now1).calls.map (fun d => d.createdAt)) ∧
    ((routeAfterAuth (routeAfterAuth st body key oracle now1) body key oracle
        now2).candidates.map scrubCandVolatile
      = (routeAfterAuth st body key oracle now1).candidates.map scrubCandVolatile) ∧
    (st.calls = [] → (routeAfterAuth st body key oracle now1).calls.map
      (fun d => d.createdAt) = [now1]) := by
  rw [routeAfterAuth_terminal st body key oracle now1 hterm,
    routeAfterAuth_terminal _ body key oracle now2 hterm]
  dsimp only
  refine ⟨?_, ?_, ?_, ?_⟩
  · exact upsert_twice_map (pickCallId (body.getD (.vobj .nil)))
      (routeCallSetOf (body.getD (.vobj .nil)) key oracle now1)
      (routeCallSetOf (body.getD (.vobj .nil)) key oracle now2)
      scrubCallUpdatedAt now1 now2 st.calls
      (fun d => by simp [routeCallSetOf, routeCallUpdateDoc]) (fun d => rfl)
  · exact upsert_twice_map (pickCallId (body.getD (.vobj .nil)))
      (routeCallSetOf (body.getD (.vobj .nil)) key oracle now1)
      (routeCallSetOf (body.getD (.vobj .nil)) key oracle now2)
      (fun d => d.createdAt) now1 now2 st.calls
      (fun d => by simp [routeCallSetOf, routeCallUpdateDoc]) (fun d => rfl)
  · exact updateFirst_twice_map
      (fun c => c.vapiCallId == some (pickCallId (body.getD (.vobj .nil))))
      (routeCandSetOf (body.getD (.vobj .nil)) key oracle now1)
      (routeCandSetOf (body.getD (.vobj .nil)) key oracle now2)
      scrubCandVolatile (fun x h => h) (fun x => rfl) st.candidates
  · intro h
    rw [h]
    rfl

/-- Witness for `c6_amended`: redelivery at a later instant leaves the
call record identical up to `updatedAt`. -/
theorem c6_amended_witness :
    (routeAfterAuth (routeAfterAuth ⟨[], [], [sampleCand]⟩
      (some terminalPayload) true (some "pass") "T1")
      (some terminalPayload) true (some "pass") "T2").calls.map scrubCallUpdatedAt
    = (routeAfterAuth ⟨[], [], [sampleCand]⟩
      (some terminalPayload) true (some "pass") "T1").calls.map scrubCallUpdatedAt :=
  (c6_amended ⟨[], [], [sampleCand]⟩ (some terminalPayload) true (some "pass")
    "T1" "T2" (by decide)).1
